import Mathlib

/-!
# Verification of `resolved-resolv-conf.c` (systemd resolved /etc/resolv.conf handling)

Shallow embedding of `src/resolve/resolved-resolv-conf.c`:

* `manager_read_resolv_conf` — change detection, line parsing and the
  mark-and-sweep merge of `/etc/resolv.conf` into the manager's collections;
* `write_resolv_conf_server` / `write_resolv_conf_search` /
  `write_resolv_conf_contents` — the capacity-limited serializer;
* `manager_write_resolv_conf` — the read-compile-publish pipeline with its
  temporary-file-plus-rename protocol.

Filesystem and libc effects (stat, fopen, fstat, fgets errors, fflush,
rename) are modelled by an explicit environment record describing the
outcome of each call; a `FILE` being written is modelled as the list of
chunks passed to `fputs`/`fprintf`/`fputc` (the file's content is the
concatenation of the chunks).  Helper functions that live outside this
file of the repository (`dns_server_mark_all`, `dns_server_unlink_marked`,
`manager_add_dns_server_by_string`, …) are modelled from the spec, as
marked in their doc comments.
-/

namespace ResolvConf

/-- `MAXNS` from `<resolv.h>`: the libc resolver's nameserver limit. -/
def MAXNS : Nat := 3

/-- `MAXDNSRCH` from `<resolv.h>`: the libc resolver's search-domain limit. -/
def MAXDNSRCH : Nat := 6

/-- Provenance tag of a record: `DNS_SERVER_SYSTEM` ("from system config",
i.e. read from `/etc/resolv.conf`) versus any other origin. -/
inductive Provenance where
  | system
  | other
deriving DecidableEq, Repr

/-- A `DnsServer` record as this file sees it: an address key, the
provenance tag, the transient `marked` flag, and the derived
`server_string` used by the writer (`none` models the
out-of-memory/invalid-address case of `dns_server_string`). -/
structure DnsServer where
  address : String
  type : Provenance
  marked : Bool
  server_string : Option String
deriving DecidableEq, Repr

/-- A `DnsSearchDomain` record: the domain name, provenance, `marked` flag. -/
structure SearchDomain where
  name : String
  type : Provenance
  marked : Bool
deriving DecidableEq, Repr

/-!
## Capacity-limited writer

A `FILE *` opened for writing is modelled as the list of chunks handed to
`fputs`/`fprintf`/`fputc`; the file's final content is their concatenation.
-/

/-- Output stream: chunks appended so far, in order. -/
abbrev FileW := List String

/-- `fputs(s, f)` appends one chunk. -/
def fputs (s : String) (f : FileW) : FileW := f ++ [s]

/-- The overflow warning emitted by `write_resolv_conf_server`. -/
def nsOverflowWarning : String :=
  "# Too many DNS servers configured, the following entries may be ignored.\n"

/-- The count warning emitted by `write_resolv_conf_search`. -/
def searchCountWarning : String :=
  " # Too many search domains configured, remaining ones ignored."

/-- The length warning emitted by `write_resolv_conf_search`. -/
def searchLengthWarning : String :=
  " # Total length of all search domains is too long, remaining ones ignored."

/-- `write_resolv_conf_server(s, f, &count)`: skip a server with no
`server_string` (logged, not counted); otherwise warn once count hits
`MAXNS`, bump the count and print the `nameserver` line. -/
def write_resolv_conf_server (s : DnsServer) (f : FileW) (count : Nat) :
    FileW × Nat :=
  match s.server_string with
  | none => (f, count)
  | some str =>
      let f := if count = MAXNS then fputs nsOverflowWarning f else f
      (fputs ("nameserver " ++ str ++ "\n") f, count + 1)

/-- `write_resolv_conf_search(domain, f, &count, &length)`: reject the
domain when the count cap is reached or it would push the cumulative
length over 256, emitting the corresponding warnings; otherwise account
for it and print `' '` followed by the domain. -/
def write_resolv_conf_search (domain : String) (f : FileW)
    (count length : Nat) : FileW × Nat × Nat :=
  if count ≥ MAXDNSRCH ∨ length + domain.length > 256 then
    let f := if count = MAXDNSRCH then fputs searchCountWarning f else f
    let f := if length ≤ 256 then fputs searchLengthWarning f else f
    (f, count, length)
  else
    (fputs domain (fputs " " f), count + 1, length + domain.length)

/-- The `ORDERED_SET_FOREACH(s, dns, i) write_resolv_conf_server(...)` loop. -/
def write_servers (l : List DnsServer) (f : FileW) (count : Nat) :
    FileW × Nat :=
  l.foldl (fun p s => write_resolv_conf_server s p.1 p.2) (f, count)

/-- The `ORDERED_SET_FOREACH(domain, domains, i) write_resolv_conf_search(...)`
loop. -/
def write_search_domains (l : List String) (f : FileW)
    (count length : Nat) : FileW × Nat × Nat :=
  l.foldl (fun p d => write_resolv_conf_search d p.1 p.2.1 p.2.2)
    (f, count, length)

/-- The fixed header comment block of the managed file. -/
def resolvConfHeader : String :=
  "# This file is managed by systemd-resolved(8). Do not edit.\n#\n" ++
  "# Third party programs must not access this file directly, but\n" ++
  "# only through the symlink at /etc/resolv.conf. To manage\n" ++
  "# resolv.conf(5) in a different way, replace the symlink by a\n" ++
  "# static file or a different symlink.\n\n"

/-- `write_resolv_conf_contents` minus the final `fflush_and_check` (the
flush outcome is part of the write environment): header, `nameserver`
lines (or the no-servers comment), then the `search` line. -/
def write_resolv_conf_contents (dns : List DnsServer)
    (domains : List String) : FileW :=
  let f : FileW := fputs resolvConfHeader []
  let f :=
    if dns.isEmpty then fputs "# No DNS servers known.\n" f
    else (write_servers dns f 0).1
  if domains.isEmpty then f
  else fputs "\n" (write_search_domains domains (fputs "search" f) 0 0).1

/-- The `nameserver` chunk the writer emits for a server. -/
def nsChunk (s : DnsServer) : String :=
  "nameserver " ++ s.server_string.getD "" ++ "\n"

/-!
## Line parsing (`strstrip`, `first_word`, word splitting)
-/

/-- C `isspace` on the characters `strstrip`/`first_word` care about. -/
def isWhite (c : Char) : Bool :=
  c = ' ' || c = '\t' || c = '\n' || c = '\r' ||
  c = Char.ofNat 11 || c = Char.ofNat 12

/-- `strstrip`: drop leading and trailing whitespace. -/
def strstrip (s : String) : String :=
  String.mk (((s.data.dropWhile isWhite).reverse.dropWhile isWhite).reverse)

/-- `first_word(haystack, needle)`: if `haystack` begins with the word
`needle` (followed by whitespace or the end of the string), return the
remainder with leading whitespace skipped, else `none` (C: `NULL`). -/
def first_word (haystack needle : String) : Option String :=
  if haystack.data.take needle.data.length = needle.data then
    match haystack.data.drop needle.data.length with
    | [] => some ""
    | c :: rest =>
        if isWhite c then some (String.mk ((c :: rest).dropWhile isWhite))
        else none
  else none

/-- Split a directive argument into whitespace-separated word tokens
(the `extract_first_word` loop of the search-domain parser). -/
def splitWords : List Char → List Char → List String
  | [], acc => if acc.isEmpty then [] else [String.mk acc.reverse]
  | c :: cs, acc =>
      if isWhite c then
        if acc.isEmpty then splitWords cs []
        else String.mk acc.reverse :: splitWords cs []
      else splitWords cs (c :: acc)

/-- All whitespace-separated words of a string. -/
def wordsOf (s : String) : List String := splitWords s.data []

/-!
## Mark-and-sweep helpers

These functions live outside this source file (in `resolved-dns-server.c`
/ `resolved-dns-search-domain.c` / `resolved-conf.c`); they are modelled
from the spec (§4.3).
-/

/-- Modelled from the spec: `dns_server_mark_all` — §4.3 step 1, mark every
record whose provenance is "from system config". -/
def dns_server_mark_all (l : List DnsServer) : List DnsServer :=
  l.map fun s => if s.type = .system then { s with marked := true } else s

/-- Modelled from the spec: `dns_search_domain_mark_all` — §4.3 step 1 for
the search-domain collection. -/
def dns_search_domain_mark_all (l : List SearchDomain) : List SearchDomain :=
  l.map fun d => if d.type = .system then { d with marked := true } else d

/-- Modelled from the spec: `dns_server_unlink_marked` — §4.3 step 4, sweep
every record still marked. -/
def dns_server_unlink_marked (l : List DnsServer) : List DnsServer :=
  l.filter fun s => !s.marked

/-- Modelled from the spec: `dns_search_domain_unlink_marked` — §4.3 step 4
for the search-domain collection. -/
def dns_search_domain_unlink_marked (l : List SearchDomain) :
    List SearchDomain :=
  l.filter fun d => !d.marked

/-- Modelled from the spec: `dns_server_unlink_all` — §4.3 step 5, remove
all "from system config" records unconditionally. -/
def dns_server_unlink_all (l : List DnsServer) : List DnsServer :=
  l.filter fun s => !(s.type = .system : Bool)

/-- Modelled from the spec: `dns_search_domain_unlink_all` — §4.3 step 5
for the search-domain collection. -/
def dns_search_domain_unlink_all (l : List SearchDomain) :
    List SearchDomain :=
  l.filter fun d => !(d.type = .system : Bool)

/-- Modelled from the spec: the add-or-unmark step of
`manager_add_dns_server_by_string` — §4.3 step 2: if a record with that
address already exists, clear its `marked` flag; otherwise append a new
unmarked record with provenance "from system config". -/
def manager_add_dns_server (l : List DnsServer) (a : String) :
    List DnsServer :=
  if l.any fun s => s.address = a then
    l.map fun s => if s.address = a then { s with marked := false } else s
  else
    l ++ [{ address := a, type := .system, marked := false,
            server_string := some a }]

/-- Modelled from the spec: the add-or-unmark step of
`manager_add_search_domain_by_string` — §4.3 step 3. -/
def manager_add_search_domain (l : List SearchDomain) (a : String) :
    List SearchDomain :=
  if l.any fun d => d.name = a then
    l.map fun d => if d.name = a then { d with marked := false } else d
  else
    l ++ [{ name := a, type := .system, marked := false }]

/-!
## The manager state and the read environment
-/

/-- The fields of `struct stat` this file inspects; `st_mtime` is the
modification time already converted by `timespec_load` to a `usec_t`. -/
structure StatResult where
  st_dev : Nat
  st_ino : Nat
  st_mtime : Nat
deriving DecidableEq, Repr

/-- `ENOENT` (errno 2). -/
def ENOENT : Nat := 2

/-- The slice of `Manager` this file reads and mutates.  The server and
search-domain collections are ordered and provenance-tagged (spec §3);
`current_dns_server` is the address selected by `manager_set_dns_server`;
`cache_flushes` counts `dns_cache_flush` calls on the unicast scope. -/
structure Manager where
  read_resolv_conf : Bool
  resolv_conf_mtime : Nat
  dns_servers : List DnsServer
  search_domains : List SearchDomain
  current_dns_server : Option String
  unicast_scope : Bool
  cache_flushes : Nat
deriving DecidableEq, Repr

/-- Outcome of every external call `manager_read_resolv_conf` makes, plus
the parsing collaborators (spec §6): `pathStat` is `stat("/etc/resolv.conf")`,
`ownStat` is `stat` of the managed output, `openResult` is `fopen`
(`none` = success, `some e` = failure with errno `e`), `fstatResult` is
`fstat` on the open handle, `lines` are the lines `FOREACH_LINE`
successfully reads, `readError` a read error terminating the loop, and
`parseServerOk`/`parseDomainOk` say which arguments the address/domain
parsers accept. -/
structure ReadEnv where
  pathStat : Except Nat StatResult
  ownStat : Except Nat StatResult
  openResult : Option Nat
  fstatResult : Except Nat StatResult
  lines : List String
  readError : Option Nat
  parseServerOk : String → Bool
  parseDomainOk : String → Bool

/-- The `clear:` label of `manager_read_resolv_conf`: unlink all
system-provenance records from both collections and return `r`. -/
def read_resolv_conf_clear (m : Manager) (r : Int) : Manager × Int :=
  ({ m with dns_servers := dns_server_unlink_all m.dns_servers,
            search_domains := dns_search_domain_unlink_all m.search_domains },
   r)

/-- The token loop of `manager_parse_search_domains_and_warn`: add each
word in turn, stopping at the first token the domain parser rejects
(the caller logs the failure and moves to the next line). -/
def manager_parse_search_domains (env : ReadEnv)
    (l : List SearchDomain) : List String → List SearchDomain
  | [] => l
  | t :: ts =>
      if env.parseDomainOk t then
        manager_parse_search_domains env (manager_add_search_domain l t) ts
      else l

/-- The body of the `FOREACH_LINE` loop: strip the line, skip comments,
then dispatch on `nameserver` / `domain` / `search`. -/
def process_resolv_conf_line (env : ReadEnv) (m : Manager)
    (line : String) : Manager :=
  let l := strstrip line
  if l.data.head? = some '#' ∨ l.data.head? = some ';' then m
  else
    match first_word l "nameserver" with
    | some a =>
        if env.parseServerOk a then
          { m with dns_servers := manager_add_dns_server m.dns_servers a }
        else m
    | none =>
        let a :=
          match first_word l "domain" with
          | some a => some a
          | none => first_word l "search"
        match a with
        | some a =>
            { m with search_domains :=
                (manager_parse_search_domains env m.search_domains
                  (wordsOf a)) }
        | none => m

/-- The "is it symlinked to our own file?" test (lines 65–68): `stat` of
the managed output succeeded and device and inode both match. -/
def is_own_alias (env : ReadEnv) (st : StatResult) : Bool :=
  match env.ownStat with
  | .ok own => st.st_dev == own.st_dev && st.st_ino == own.st_ino
  | .error _ => false

/-- `manager_read_resolv_conf`: change detection, parse and mark-and-sweep
merge, returning the mutated manager and the C return value.  Faithful to
the source, including: `t` is loaded from the *path* stat before the
mtime comparison and is what line 114 stores (the `fstat` result is only
checked for failure, its timestamp is discarded), and every `clear:` path
returns the negative errno produced by `log_warning_errno` /
`log_error_errno`. -/
def manager_read_resolv_conf (env : ReadEnv) (m : Manager) :
    Manager × Int :=
  if !m.read_resolv_conf then (m, 0)
  else
    match env.pathStat with
    | .error e =>
        if e = ENOENT then (m, 0) else read_resolv_conf_clear m (-(e : Int))
    | .ok st =>
        let t := st.st_mtime
        if t = m.resolv_conf_mtime then (m, 0)
        else if is_own_alias env st then (m, 0)
        else
          match env.openResult with
          | some e =>
              if e = ENOENT then (m, 0)
              else read_resolv_conf_clear m (-(e : Int))
          | none =>
              match env.fstatResult with
              | .error e => read_resolv_conf_clear m (-(e : Int))
              | .ok _ =>
                  let m1 := { m with
                    dns_servers := dns_server_mark_all m.dns_servers,
                    search_domains :=
                      dns_search_domain_mark_all m.search_domains }
                  let m2 := env.lines.foldl (process_resolv_conf_line env) m1
                  match env.readError with
                  | some e => read_resolv_conf_clear m2 (-(e : Int))
                  | none =>
                      let m3 := { m2 with resolv_conf_mtime := t }
                      let m4 := { m3 with
                        dns_servers := dns_server_unlink_marked m3.dns_servers,
                        search_domains :=
                          dns_search_domain_unlink_marked m3.search_domains }
                      let m5 := { m4 with
                        current_dns_server :=
                          (match m4.dns_servers with
                           | [] => none
                           | s :: _ => some s.address) }
                      let m6 :=
                        if m5.unicast_scope then
                          { m5 with cache_flushes := m5.cache_flushes + 1 }
                        else m5
                      (m6, 0)

/-- Does this read reach line 114 and complete a full successful parse
pass?  (policy flag set, path stat succeeds with a fresh mtime, not an
alias of our own file, open and fstat succeed, no read error). -/
def full_parse_pass (env : ReadEnv) (m : Manager) : Bool :=
  m.read_resolv_conf &&
  (match env.pathStat with
   | .error _ => false
   | .ok st =>
       !(st.st_mtime == m.resolv_conf_mtime) &&
       !(is_own_alias env st) &&
       (match env.openResult with
        | some _ => false
        | none =>
            (match env.fstatResult with
             | .error _ => false
             | .ok _ =>
                 (match env.readError with
                  | some _ => false
                  | none => true))))

/-- The mtime `timespec_load(&st.st_mtim)` yields from the initial path
stat (0 when the stat failed — only used under `full_parse_pass`). -/
def path_stat_mtime (env : ReadEnv) : Nat :=
  match env.pathStat with
  | .ok st => st.st_mtime
  | .error _ => 0

/-!
## The write path (`manager_write_resolv_conf`)
-/

/-- The two filesystem locations the write path touches: the managed
target `/run/systemd/resolve/resolv.conf` and the temporary file next to
it; `none` = absent, `some c` = present with content `c`. -/
structure FS where
  target : Option String
  temp : Option String
deriving DecidableEq, Repr

/-- Outcome of every fallible step of `manager_write_resolv_conf`
(`none` = success, `some e` = failure with errno/error `e`), plus the
environment of the embedded `manager_read_resolv_conf` call. -/
structure WriteEnv where
  readEnv : ReadEnv
  compileDnsError : Option Nat
  compileDomainsError : Option Nat
  openTempError : Option Nat
  flushError : Option Nat
  renameError : Option Nat

/-- Modelled from the spec: `manager_compile_dns_servers` — "Add the full
list to a set, to filter out duplicates": the ordered deduplicated (by
address, first occurrence kept) view of the server collection. -/
def manager_compile_dns_servers (m : Manager) : List DnsServer :=
  m.dns_servers.foldl
    (fun acc s => if acc.any fun s2 => s2.address = s.address then acc
                  else acc ++ [s])
    []

/-- Modelled from the spec: `manager_compile_search_domains` — the ordered
deduplicated list of search-domain names. -/
def manager_compile_search_domains (m : Manager) : List String :=
  m.search_domains.foldl
    (fun acc d => if acc.any fun n => n = d.name then acc
                  else acc ++ [d.name])
    []

/-- `manager_write_resolv_conf`: read `/etc/resolv.conf` first (return
value ignored), compile the deduplicated views, create a temporary file
next to the target, write the serialized content, and rename it over the
target; on a write/flush or rename failure, unlink both the target and
the temporary file and propagate the error. -/
def manager_write_resolv_conf (env : WriteEnv) (m : Manager) (fs : FS) :
    Manager × FS × Int :=
  let m := (manager_read_resolv_conf env.readEnv m).1
  match env.compileDnsError with
  | some e => (m, fs, -(e : Int))
  | none =>
  match env.compileDomainsError with
  | some e => (m, fs, -(e : Int))
  | none =>
  let dns := manager_compile_dns_servers m
  let domains := manager_compile_search_domains m
  match env.openTempError with
  | some e => (m, fs, -(e : Int))
  | none =>
  let fs1 : FS := { fs with temp := some "" }
  let content := String.join (write_resolv_conf_contents dns domains)
  match env.flushError with
  | some e => (m, { target := none, temp := none }, -(e : Int))
  | none =>
  let fs2 : FS := { fs1 with temp := some content }
  match env.renameError with
  | some e => (m, { target := none, temp := none }, -(e : Int))
  | none => (m, { fs2 with target := some content, temp := none }, 0)

/-!
## Helper lemmas
-/

/-- Processing one line never touches the stored mtime. -/
theorem process_line_mtime (env : ReadEnv) (m : Manager) (line : String) :
    (process_resolv_conf_line env m line).resolv_conf_mtime =
      m.resolv_conf_mtime := by
  unfold process_resolv_conf_line
  dsimp only
  split
  · rfl
  · split <;> first | rfl | (split <;> rfl)

/-- The whole `FOREACH_LINE` loop never touches the stored mtime. -/
theorem foldl_process_mtime (env : ReadEnv) (lines : List String)
    (m : Manager) :
    (lines.foldl (process_resolv_conf_line env) m).resolv_conf_mtime =
      m.resolv_conf_mtime := by
  induction lines generalizing m with
  | nil => rfl
  | cons l rest ih => rw [List.foldl_cons, ih, process_line_mtime]

/-- Soft failure on the initial `stat`: for a cause other than absence the
function clears the collections and returns `-errno`. -/
theorem read_stat_failure (env : ReadEnv) (m : Manager) (e : Nat)
    (hm : m.read_resolv_conf = true) (hps : env.pathStat = .error e)
    (he : e ≠ ENOENT) :
    manager_read_resolv_conf env m = read_resolv_conf_clear m (-(e : Int)) := by
  unfold manager_read_resolv_conf
  simp [hm, hps, he]

/-- Soft failure on `fopen`: for a cause other than absence the function
clears the collections and returns `-errno`. -/
theorem read_open_failure (env : ReadEnv) (m : Manager)
    (st : StatResult) (e : Nat)
    (hm : m.read_resolv_conf = true) (hps : env.pathStat = .ok st)
    (ht : st.st_mtime ≠ m.resolv_conf_mtime)
    (ha : is_own_alias env st = false)
    (ho : env.openResult = some e) (he : e ≠ ENOENT) :
    manager_read_resolv_conf env m = read_resolv_conf_clear m (-(e : Int)) := by
  unfold manager_read_resolv_conf
  simp [hm, hps, ht, ha, ho, he]

/-!
## Claims
-/

/-- Claim C6: if the source file's modification timestamp equals the last
recorded timestamp, `manager_read_resolv_conf` is a no-op: it returns
success and mutates nothing — not the server collection, not the
search-domain collection, not the stored timestamp (nor anything else in
the manager). -/
theorem C6_mtime_short_circuit (env : ReadEnv) (m : Manager)
    (st : StatResult) (hps : env.pathStat = .ok st)
    (ht : st.st_mtime = m.resolv_conf_mtime) :
    manager_read_resolv_conf env m = (m, 0) := by
  unfold manager_read_resolv_conf
  cases hm : m.read_resolv_conf <;> simp [hps, ht]

/-- Witness for C6 at a concrete environment and manager. -/
theorem C6_mtime_short_circuit_witness :
    manager_read_resolv_conf
      { pathStat := .ok ⟨1, 1, 42⟩, ownStat := .ok ⟨2, 2, 7⟩,
        openResult := none, fstatResult := .ok ⟨1, 1, 42⟩,
        lines := ["nameserver 10.0.0.1"], readError := none,
        parseServerOk := fun _ => true, parseDomainOk := fun _ => true }
      { read_resolv_conf := true, resolv_conf_mtime := 42,
        dns_servers := [], search_domains := [],
        current_dns_server := none, unicast_scope := true,
        cache_flushes := 0 } =
      ({ read_resolv_conf := true, resolv_conf_mtime := 42,
         dns_servers := [], search_domains := [],
         current_dns_server := none, unicast_scope := true,
         cache_flushes := 0 }, 0) :=
  C6_mtime_short_circuit _ _ ⟨1, 1, 42⟩ rfl rfl

/-- The external path refers to the same device and inode as the managed
output file (the condition of lines 65–68, with the `stat` of the path
having succeeded). -/
def own_alias_env (env : ReadEnv) : Prop :=
  ∃ st own, env.pathStat = .ok st ∧ env.ownStat = .ok own ∧
    st.st_dev = own.st_dev ∧ st.st_ino = own.st_ino

/-- Claim C7: whenever the external source path is a same-inode alias of
the managed output file, `manager_read_resolv_conf` returns success
without mutating the manager at all (so without reading the file or
advancing the timestamp); consequently any sequence of invocations in
aliased environments — whatever content the file has in each — leaves the
manager exactly as it was. -/
theorem C7_own_alias_noop :
    (∀ (env : ReadEnv) (m : Manager), own_alias_env env →
        manager_read_resolv_conf env m = (m, 0)) ∧
    (∀ (envs : List ReadEnv) (m : Manager),
        (∀ e ∈ envs, own_alias_env e) →
        envs.foldl (fun mm e => (manager_read_resolv_conf e mm).1) m = m) := by
  have h1 : ∀ (env : ReadEnv) (m : Manager), own_alias_env env →
      manager_read_resolv_conf env m = (m, 0) := by
    intro env m ⟨st, own, hps, hown, hdev, hino⟩
    have ha : is_own_alias env st = true := by
      simp [is_own_alias, hown, hdev, hino]
    unfold manager_read_resolv_conf
    cases hm : m.read_resolv_conf <;> simp [hps, ha]
  refine ⟨h1, ?_⟩
  intro envs
  induction envs with
  | nil => intro m _; rfl
  | cons e rest ih =>
      intro m hall
      rw [List.foldl_cons, h1 e m (hall e (by simp))]
      exact ih m fun e2 he2 => hall e2 (by simp [he2])

/-- Witness for C7 at a concrete aliased environment: a single invocation
and a two-invocation sequence both leave the manager untouched. -/
theorem C7_own_alias_noop_witness :
    manager_read_resolv_conf
      { pathStat := .ok ⟨5, 99, 1000⟩, ownStat := .ok ⟨5, 99, 3⟩,
        openResult := none, fstatResult := .ok ⟨5, 99, 1000⟩,
        lines := ["nameserver 10.0.0.1"], readError := none,
        parseServerOk := fun _ => true, parseDomainOk := fun _ => true }
      { read_resolv_conf := true, resolv_conf_mtime := 7,
        dns_servers := [], search_domains := [],
        current_dns_server := none, unicast_scope := true,
        cache_flushes := 0 } =
      ({ read_resolv_conf := true, resolv_conf_mtime := 7,
         dns_servers := [], search_domains := [],
         current_dns_server := none, unicast_scope := true,
         cache_flushes := 0 }, 0) :=
  C7_own_alias_noop.1 _ _ ⟨⟨5, 99, 1000⟩, ⟨5, 99, 3⟩, rfl, rfl, rfl, rfl⟩

/-- A read environment in which `stat("/etc/resolv.conf")` fails with
`EACCES` (errno 13). -/
def c4Env : ReadEnv :=
  { pathStat := .error 13, ownStat := .error ENOENT, openResult := none,
    fstatResult := .error 13, lines := [], readError := none,
    parseServerOk := fun _ => true, parseDomainOk := fun _ => true }

/-- A manager with the read policy enabled and one system-provenance
server. -/
def c4Manager : Manager :=
  { read_resolv_conf := true, resolv_conf_mtime := 100,
    dns_servers := [⟨"10.0.0.1", .system, false, some "10.0.0.1"⟩],
    search_domains := [], current_dns_server := none,
    unicast_scope := true, cache_flushes := 0 }

/-- Claim C4 as stated is false: on a non-ENOENT `stat` failure
`manager_read_resolv_conf` does *not* return success — `log_warning_errno`
returns `-errno` and the `clear:` path returns that negative value
(here `-13`). -/
theorem C4_counterexample :
    ¬ (manager_read_resolv_conf c4Env c4Manager).2 = 0 := by decide

/-- Claim C4, amended: for every `stat` or `fopen` failure whose cause is
not absence, `manager_read_resolv_conf` takes the `clear:` path — it
removes the system-provenance records from both collections, leaves the
stored modification timestamp untouched, and returns the *negative errno*
(a failure code, not success). -/
theorem C4_amended_soft_failure :
    (∀ (env : ReadEnv) (m : Manager) (e : Nat),
        m.read_resolv_conf = true → env.pathStat = .error e →
        e ≠ ENOENT → 0 < e →
        manager_read_resolv_conf env m =
            read_resolv_conf_clear m (-(e : Int)) ∧
        (manager_read_resolv_conf env m).2 < 0 ∧
        (manager_read_resolv_conf env m).1.resolv_conf_mtime =
            m.resolv_conf_mtime) ∧
    (∀ (env : ReadEnv) (m : Manager) (st : StatResult) (e : Nat),
        m.read_resolv_conf = true → env.pathStat = .ok st →
        st.st_mtime ≠ m.resolv_conf_mtime → is_own_alias env st = false →
        env.openResult = some e → e ≠ ENOENT → 0 < e →
        manager_read_resolv_conf env m =
            read_resolv_conf_clear m (-(e : Int)) ∧
        (manager_read_resolv_conf env m).2 < 0 ∧
        (manager_read_resolv_conf env m).1.resolv_conf_mtime =
            m.resolv_conf_mtime) := by
  constructor
  · intro env m e hm hps he hpos
    have hcl := read_stat_failure env m e hm hps he
    refine ⟨hcl, ?_, ?_⟩ <;> rw [hcl] <;> simp [read_resolv_conf_clear]
    omega
  · intro env m st e hm hps ht ha ho he hpos
    have hcl := read_open_failure env m st e hm hps ht ha ho he
    refine ⟨hcl, ?_, ?_⟩ <;> rw [hcl] <;> simp [read_resolv_conf_clear]
    omega

/-- Witness for the amended C4 at the concrete `EACCES` environment. -/
theorem C4_amended_soft_failure_witness :
    manager_read_resolv_conf c4Env c4Manager =
        read_resolv_conf_clear c4Manager (-(13 : Int)) ∧
    (manager_read_resolv_conf c4Env c4Manager).2 < 0 ∧
    (manager_read_resolv_conf c4Env c4Manager).1.resolv_conf_mtime =
        c4Manager.resolv_conf_mtime :=
  C4_amended_soft_failure.1 c4Env c4Manager 13 rfl rfl
    (by decide) (by decide)

/-- A read environment whose source file carries an *older* mtime (50)
than the manager last recorded (100); everything else succeeds. -/
def c9Env : ReadEnv :=
  { pathStat := .ok ⟨1, 1, 50⟩, ownStat := .error ENOENT,
    openResult := none, fstatResult := .ok ⟨1, 1, 50⟩, lines := [],
    readError := none, parseServerOk := fun _ => true,
    parseDomainOk := fun _ => true }

/-- A manager that last recorded mtime 100. -/
def c9Manager : Manager :=
  { read_resolv_conf := true, resolv_conf_mtime := 100,
    dns_servers := [], search_domains := [], current_dns_server := none,
    unicast_scope := false, cache_flushes := 0 }

/-- Claim C9 as stated is false: the stored timestamp is not monotonic.
When the source file is replaced by one with an older mtime, a successful
parse pass *lowers* the stored timestamp (here from 100 to 50). -/
theorem C9_counterexample :
    (manager_read_resolv_conf c9Env c9Manager).1.resolv_conf_mtime <
      c9Manager.resolv_conf_mtime := by decide

/-- Claim C9, amended: the stored modification timestamp is updated
exactly when a full successful parse pass completes — never on a failed
read or a short-circuited cycle — and the value stored is the source
file's path-stat mtime (so it tracks the file and need not advance
monotonically). -/
theorem C9_amended_mtime_update (env : ReadEnv) (m : Manager) :
    (manager_read_resolv_conf env m).1.resolv_conf_mtime =
      if full_parse_pass env m then path_stat_mtime env
      else m.resolv_conf_mtime := by
  unfold manager_read_resolv_conf full_parse_pass path_stat_mtime
  cases hm : m.read_resolv_conf
  · simp
  · cases hps : env.pathStat with
    | error e =>
        by_cases he : e = ENOENT <;> simp [he, read_resolv_conf_clear]
    | ok st =>
        by_cases ht : st.st_mtime = m.resolv_conf_mtime
        · simp [ht]
        · cases ha : is_own_alias env st
          · cases ho : env.openResult with
            | some e =>
                by_cases he : e = ENOENT <;>
                  simp [he, ht, ha, ho, read_resolv_conf_clear]
            | none =>
                cases hf : env.fstatResult with
                | error e => simp [ht, ha, ho, hf, read_resolv_conf_clear]
                | ok st2 =>
                    cases hr : env.readError with
                    | some e =>
                        simp [ht, ha, ho, hf, hr, read_resolv_conf_clear,
                          foldl_process_mtime]
                    | none =>
                        simp only [ht, ha, ho, hf, hr]
                        simp [ht]
                        split <;> rfl
          · simp [ht, ha]

/-- No witness is needed for `C9_amended_mtime_update` (no hypotheses),
but this instance records a concrete successful-parse update. -/
theorem C9_amended_update_example :
    (manager_read_resolv_conf c9Env c9Manager).1.resolv_conf_mtime = 50 := by
  decide

/-- A read environment in which the file is replaced between the initial
`stat` (mtime 10) and the `fopen`: the `fstat` of the open handle reports
mtime 20.  Everything succeeds. -/
def c3Env : ReadEnv :=
  { pathStat := .ok ⟨1, 1, 10⟩, ownStat := .error ENOENT,
    openResult := none, fstatResult := .ok ⟨1, 1, 20⟩, lines := [],
    readError := none, parseServerOk := fun _ => true,
    parseDomainOk := fun _ => true }

/-- A manager about to run the cycle of `c3Env`. -/
def c3Manager : Manager :=
  { read_resolv_conf := true, resolv_conf_mtime := 0,
    dns_servers := [], search_domains := [], current_dns_server := none,
    unicast_scope := false, cache_flushes := 0 }

/-- Claim C3 is violated by the code (code bug): `t` is loaded from the
*initial path stat* at line 60, before the `fstat` of line 79, and the
`fstat` result's timestamp is discarded; line 114 stores `t`.  At the
failing input of `c3Env` (file replaced between stat and open: path-stat
mtime 10, fstat mtime 20) the recorded timestamp is the path-stat value
10, not the open-handle value 20 that the spec requires. -/
theorem C3_path_stat_mtime_recorded :
    (manager_read_resolv_conf c3Env c3Manager).1.resolv_conf_mtime = 10 ∧
    ¬ (manager_read_resolv_conf c3Env c3Manager).1.resolv_conf_mtime = 20 := by
  decide

/-- Unfolding one step of the server serialization loop. -/
theorem write_servers_cons (s : DnsServer) (l : List DnsServer)
    (f : FileW) (c : Nat) :
    write_servers (s :: l) f c =
      write_servers l (write_resolv_conf_server s f c).1
        (write_resolv_conf_server s f c).2 := rfl

/-- Once the running count is past `MAXNS` the warning can never fire
again: the loop emits exactly one `nameserver` line per remaining server. -/
theorem write_servers_past_cap (l : List DnsServer) (f : FileW) (c : Nat)
    (hv : ∀ s ∈ l, s.server_string.isSome) (hc : MAXNS < c) :
    (write_servers l f c).1 = f ++ l.map nsChunk := by
  induction l generalizing f c with
  | nil => simp [write_servers]
  | cons s rest ih =>
      obtain ⟨str, hstr⟩ :=
        Option.isSome_iff_exists.mp (hv s (by simp))
      have hne : ¬ c = MAXNS := by omega
      rw [write_servers_cons]
      rw [ih _ _ (fun s2 hs2 => hv s2 (by simp [hs2])) (by
        simp [write_resolv_conf_server, hstr]; omega)]
      simp [write_resolv_conf_server, hstr, hne, fputs, nsChunk]

/-- While the running count is still at most `MAXNS`, the loop emits the
next `MAXNS - c` servers plainly; if more servers remain, the warning is
emitted exactly once, right there, and every remaining server is still
emitted afterwards. -/
theorem write_servers_split (l : List DnsServer) (f : FileW) (c : Nat)
    (hv : ∀ s ∈ l, s.server_string.isSome) (hc : c ≤ MAXNS) :
    (write_servers l f c).1 =
      f ++ (l.take (MAXNS - c)).map nsChunk ++
        (if MAXNS - c < l.length then
           nsOverflowWarning :: (l.drop (MAXNS - c)).map nsChunk
         else []) := by
  induction l generalizing f c with
  | nil => simp [write_servers]
  | cons s rest ih =>
      obtain ⟨str, hstr⟩ :=
        Option.isSome_iff_exists.mp (hv s (by simp))
      have hvr : ∀ s2 ∈ rest, s2.server_string.isSome :=
        fun s2 hs2 => hv s2 (by simp [hs2])
      rw [write_servers_cons]
      by_cases hcm : c = MAXNS
      · subst hcm
        rw [show (write_resolv_conf_server s f MAXNS).1 =
              f ++ [nsOverflowWarning, nsChunk s] by
            simp [write_resolv_conf_server, hstr, fputs, nsChunk]]
        rw [write_servers_past_cap rest _ _ hvr (by
          simp [write_resolv_conf_server, hstr])]
        simp [Nat.sub_self]
      · have hlt : c < MAXNS := lt_of_le_of_ne hc hcm
        rw [show (write_resolv_conf_server s f c).1 =
              f ++ [nsChunk s] by
            simp [write_resolv_conf_server, hstr, hcm, fputs, nsChunk]]
        rw [show (write_resolv_conf_server s f c).2 = c + 1 by
            simp [write_resolv_conf_server, hstr]]
        rw [ih _ _ hvr (by omega)]
        have hk : MAXNS - c = (MAXNS - (c + 1)) + 1 := by omega
        rw [hk]
        by_cases hrest : MAXNS - (c + 1) < rest.length
        · have : (MAXNS - (c + 1)) + 1 < (s :: rest).length := by
            simp; omega
          simp [hrest, this, List.take_succ_cons, List.drop_succ_cons]
        · have : ¬ ((MAXNS - (c + 1)) + 1 < (s :: rest).length) := by
            simp; omega
          simp [hrest, this, List.take_succ_cons]

/-- Five servers (all with valid strings), cap `MAXNS = 3`. -/
def c1Servers : List DnsServer :=
  [⟨"10.0.0.1", .system, false, some "10.0.0.1"⟩,
   ⟨"10.0.0.2", .system, false, some "10.0.0.2"⟩,
   ⟨"10.0.0.3", .system, false, some "10.0.0.3"⟩,
   ⟨"10.0.0.4", .system, false, some "10.0.0.4"⟩,
   ⟨"10.0.0.5", .system, false, some "10.0.0.5"⟩]

/-- Claim C1 as stated is false: given 5 servers and `MAXNS = 3`, the
writer does *not* stop at 3 `nameserver` lines — it emits all five, with
the overflow warning once before the fourth.  In particular the fourth
server's line appears in the output, so servers past the cap are not
omitted. -/
theorem C1_counterexample :
    (write_servers c1Servers [] 0).1 =
      ["nameserver 10.0.0.1\n", "nameserver 10.0.0.2\n",
       "nameserver 10.0.0.3\n", nsOverflowWarning,
       "nameserver 10.0.0.4\n", "nameserver 10.0.0.5\n"] ∧
    "nameserver 10.0.0.4\n" ∈ (write_servers c1Servers [] 0).1 := by
  constructor <;> decide

/-- Claim C1, amended: the writer emits a `nameserver` line for *every*
server with a valid string, in order; when more than `MAXNS` of them are
present, the overflow warning comment is emitted exactly once, between
the `MAXNS`-th and the `(MAXNS+1)`-th line, and the remaining servers are
still written out (the warning says they "may be ignored" by the libc
resolver, the file keeps them). -/
theorem C1_amended_all_servers_written (l : List DnsServer)
    (hv : ∀ s ∈ l, s.server_string.isSome) :
    (write_servers l [] 0).1 =
      (l.take MAXNS).map nsChunk ++
        (if MAXNS < l.length then
           nsOverflowWarning :: (l.drop MAXNS).map nsChunk
         else []) := by
  have h := write_servers_split l [] 0 hv (by omega)
  simpa using h

/-- Witness for the amended C1 at the five concrete servers. -/
theorem C1_amended_all_servers_written_witness :
    (write_servers c1Servers [] 0).1 =
      (c1Servers.take MAXNS).map nsChunk ++
        (if MAXNS < c1Servers.length then
           nsOverflowWarning :: (c1Servers.drop MAXNS).map nsChunk
         else []) :=
  C1_amended_all_servers_written c1Servers (by decide)

/-- A 255-character domain. -/
def longDomainA : String := String.mk (List.replicate 255 'a')

/-- A 10-character domain. -/
def longDomainB : String := String.mk (List.replicate 10 'b')

/-- Claim C5 is violated by the code (code bug): a rejected domain updates
neither `*count` nor `*length`, so after the cumulative-length cap is hit
mid-list (255-char domain accepted, 10-char domain rejected with the
length warning) a later 1-char domain that still fits is *emitted* — the
emitted warning text "remaining ones ignored" is contradicted by the
code's own output.  Moreover, because `*length` can never exceed 256, the
length warning is re-emitted for every further rejected domain (second
conjunct: the same 10-char domain rejected twice yields the warning
twice). -/
theorem C5_code_evaluation :
    write_search_domains [longDomainA, longDomainB, "c"] [] 0 0 =
      ([" ", longDomainA, searchLengthWarning, " ", "c"], 2, 256) ∧
    write_search_domains [longDomainA, longDomainB, longDomainB] [] 0 0 =
      ([" ", longDomainA, searchLengthWarning, searchLengthWarning],
       1, 255) := by
  constructor <;> (set_option maxRecDepth 100000 in decide)

/-- The other-provenance sub-collection of the server collection. -/
def otherServers (l : List DnsServer) : List DnsServer :=
  l.filter fun r => r.type == Provenance.other

/-- The transient-flag invariant restricted to other-provenance records:
outside a cycle no other-provenance record is marked. -/
def OtherUnmarked (l : List DnsServer) : Prop :=
  ∀ r ∈ l, r.type = Provenance.other → r.marked = false

/-- A type-preserving map that fixes every other-provenance record leaves
the other-provenance sub-collection unchanged. -/
theorem filter_other_map (f : DnsServer → DnsServer)
    (hty : ∀ r, (f r).type = r.type) :
    ∀ (l : List DnsServer),
      (∀ r ∈ l, r.type = Provenance.other → f r = r) →
      otherServers (l.map f) = otherServers l := by
  intro l
  induction l with
  | nil => intro _; rfl
  | cons r rest ih =>
      intro hf
      have ih2 := ih fun x hx => hf x (List.mem_cons_of_mem _ hx)
      unfold otherServers at ih2 ⊢
      simp only [List.map_cons, List.filter_cons, hty r]
      cases hro : (r.type == Provenance.other)
      · simp [hro, ih2]
      · have hfix : f r = r := hf r (by simp) (by simpa using hro)
        simp [hro, hfix, ih2]

/-- Marking the system records does not touch the other-provenance
sub-collection. -/
theorem others_mark_all (l : List DnsServer) :
    otherServers (dns_server_mark_all l) = otherServers l := by
  refine filter_other_map _ ?_ l ?_
  · intro r; by_cases h : r.type = Provenance.system <;> simp [h]
  · intro r _ hro
    have : ¬ r.type = Provenance.system := by simp [hro]
    simp [this]

/-- Marking the system records keeps other-provenance records unmarked. -/
theorem mark_all_OtherUnmarked (l : List DnsServer)
    (h : OtherUnmarked l) : OtherUnmarked (dns_server_mark_all l) := by
  intro r hr hty
  rcases List.mem_map.mp hr with ⟨r0, hr0, heq⟩
  by_cases h0 : r0.type = Provenance.system
  · rw [if_pos h0] at heq
    subst heq
    simp_all
  · rw [if_neg h0] at heq
    subst heq
    exact h r0 hr0 hty

/-- The unmark-on-match map of the add step does not change the
other-provenance sub-collection (its records are already unmarked). -/
theorem others_unmark_map (l : List DnsServer) (a : String)
    (h : OtherUnmarked l) :
    otherServers
        (l.map fun s =>
          if s.address = a then { s with marked := false } else s) =
      otherServers l := by
  refine filter_other_map _ ?_ l ?_
  · intro r; by_cases hadr : r.address = a <;> simp [hadr]
  · intro r hr hro
    have hm : r.marked = false := h r hr hro
    by_cases hadr : r.address = a
    · simp only [if_pos hadr]
      cases r; simp_all
    · simp [hadr]

/-- The add-or-unmark step never adds to or removes from the
other-provenance sub-collection. -/
theorem others_add (l : List DnsServer) (a : String)
    (h : OtherUnmarked l) :
    otherServers (manager_add_dns_server l a) = otherServers l := by
  unfold manager_add_dns_server
  split
  · exact others_unmark_map l a h
  · simp [otherServers, List.filter_append]

/-- The add-or-unmark step keeps other-provenance records unmarked. -/
theorem add_OtherUnmarked (l : List DnsServer) (a : String)
    (h : OtherUnmarked l) :
    OtherUnmarked (manager_add_dns_server l a) := by
  unfold manager_add_dns_server
  split
  · intro r hr hty
    rcases List.mem_map.mp hr with ⟨r0, hr0, heq⟩
    by_cases h0 : r0.address = a
    · rw [if_pos h0] at heq; subst heq; rfl
    · rw [if_neg h0] at heq; subst heq; exact h r0 hr0 hty
  · intro r hr hty
    rcases List.mem_append.mp hr with hr0 | hr0
    · exact h r hr0 hty
    · simp_all

/-- The whole sequence of add-or-unmark steps preserves the
other-provenance sub-collection and its unmarkedness. -/
theorem others_foldl_add (adds : List String) (l : List DnsServer)
    (h : OtherUnmarked l) :
    otherServers (adds.foldl manager_add_dns_server l) = otherServers l ∧
    OtherUnmarked (adds.foldl manager_add_dns_server l) := by
  induction adds generalizing l with
  | nil => exact ⟨rfl, h⟩
  | cons a rest ih =>
      rw [List.foldl_cons]
      rcases ih (manager_add_dns_server l a) (add_OtherUnmarked l a h)
        with ⟨e1, e2⟩
      exact ⟨by rw [e1, others_add l a h], e2⟩

/-- The sweep removes no other-provenance record (they are unmarked). -/
theorem others_unlink_marked (l : List DnsServer)
    (h : OtherUnmarked l) :
    otherServers (dns_server_unlink_marked l) = otherServers l := by
  induction l with
  | nil => rfl
  | cons r rest ih =>
      have ih2 := ih fun x hx => h x (List.mem_cons_of_mem _ hx)
      unfold otherServers dns_server_unlink_marked at ih2 ⊢
      simp only [List.filter_cons]
      cases hmk : r.marked
      · cases hro : (r.type == Provenance.other) <;> simp [hro, ih2]
      · have hro : (r.type == Provenance.other) = false := by
          cases hty : r.type
          · simp
          · exact absurd hmk (by simp [h r (by simp) hty])
        simp [hro, ih2]

/-- Record `A`, provenance "from system config". -/
def c8A : DnsServer := ⟨"10.0.0.1", .system, false, some "10.0.0.1"⟩

/-- Record `B`, other provenance. -/
def c8B : DnsServer := ⟨"192.168.1.1", .other, false, some "192.168.1.1"⟩

/-- Record `C`, provenance "from system config". -/
def c8C : DnsServer := ⟨"10.9.9.9", .system, false, some "10.9.9.9"⟩

/-- Prior collection `{A(system), B(other)}`, reading enabled. -/
def c8Manager : Manager :=
  { read_resolv_conf := true, resolv_conf_mtime := 100,
    dns_servers := [c8A, c8B], search_domains := [],
    current_dns_server := none, unicast_scope := false,
    cache_flushes := 0 }

/-- A cycle whose external file lists only `A`. -/
def c8EnvA : ReadEnv :=
  { pathStat := .ok ⟨1, 1, 50⟩, ownStat := .error ENOENT,
    openResult := none, fstatResult := .ok ⟨1, 1, 50⟩,
    lines := ["nameserver 10.0.0.1"], readError := none,
    parseServerOk := fun _ => true, parseDomainOk := fun _ => true }

/-- A cycle whose external file lists only `C`. -/
def c8EnvC : ReadEnv :=
  { pathStat := .ok ⟨1, 1, 50⟩, ownStat := .error ENOENT,
    openResult := none, fstatResult := .ok ⟨1, 1, 50⟩,
    lines := ["nameserver 10.9.9.9"], readError := none,
    parseServerOk := fun _ => true, parseDomainOk := fun _ => true }

/-- Claim C8: the mark-and-sweep merge.  (1) Reconciling the prior
collection `{A(system), B(other)}` against a file listing only `A` leaves
the collection exactly `[A(system), B(other)]`.  (2) Reconciling it
against a file listing only `C` yields exactly `{C(system), B(other)}`
(`A` swept, `B` untouched, `C` appended).  (3) In general, a full merge
cycle — mark all system records, fold the add-or-unmark step over any
sequence of parsed addresses, sweep the still-marked records — never adds
or removes (or alters) a record of other provenance, provided the
transient `marked` flags start cleared. -/
theorem C8_mark_and_sweep_merge :
    (manager_read_resolv_conf c8EnvA c8Manager).1.dns_servers =
        [c8A, c8B] ∧
    (manager_read_resolv_conf c8EnvC c8Manager).1.dns_servers =
        [c8B, c8C] ∧
    (∀ (adds : List String) (l : List DnsServer),
        (∀ r ∈ l, r.marked = false) →
        otherServers
            (dns_server_unlink_marked
              (adds.foldl manager_add_dns_server (dns_server_mark_all l))) =
          otherServers l) := by
  refine ⟨?_, ?_, ?_⟩
  · set_option maxRecDepth 100000 in decide
  · set_option maxRecDepth 100000 in decide
  · intro adds l h
    have h0 : OtherUnmarked l := fun r hr _ => h r hr
    have h1 := mark_all_OtherUnmarked l h0
    rcases others_foldl_add adds (dns_server_mark_all l) h1 with ⟨e1, e2⟩
    rw [others_unlink_marked _ e2, e1, others_mark_all]

/-- Witness for C8's quantified conjunct at a concrete merge cycle. -/
theorem C8_mark_and_sweep_merge_witness :
    otherServers
        (dns_server_unlink_marked
          (["10.9.9.9"].foldl manager_add_dns_server
            (dns_server_mark_all [c8A, c8B]))) =
      otherServers [c8A, c8B] :=
  C8_mark_and_sweep_merge.2.2 ["10.9.9.9"] [c8A, c8B] (by decide)

/-- A read environment for a manager whose read policy is disabled (the
write path still calls the read step; it returns immediately). -/
def quietReadEnv : ReadEnv :=
  { pathStat := .error ENOENT, ownStat := .error ENOENT,
    openResult := some ENOENT, fstatResult := .error ENOENT,
    lines := [], readError := none,
    parseServerOk := fun _ => true, parseDomainOk := fun _ => true }

/-- A write environment in which everything succeeds up to the content
write, and `fflush_and_check` fails with `EIO` (5). -/
def c2Env : WriteEnv :=
  { readEnv := quietReadEnv, compileDnsError := none,
    compileDomainsError := none, openTempError := none,
    flushError := some 5, renameError := none }

/-- A manager with reading disabled and one known server. -/
def c2Manager : Manager :=
  { read_resolv_conf := false, resolv_conf_mtime := 0,
    dns_servers := [⟨"10.0.0.1", .system, false, some "10.0.0.1"⟩],
    search_domains := [], current_dns_server := none,
    unicast_scope := false, cache_flushes := 0 }

/-- A filesystem state with a previously published file at the managed
target path and no stray temporary. -/
def c2FS : FS := { target := some "old published content", temp := none }

/-- Claim C2 as stated is false: on a flush failure during the publish
step, the `fail:` path `unlink`s the *target* too, so the previously
published file is removed, not "left completely unmodified". -/
theorem C2_counterexample :
    c2FS.target = some "old published content" ∧
    ¬ (manager_write_resolv_conf c2Env c2Manager c2FS).2.1.target =
        some "old published content" := by
  constructor
  · rfl
  · set_option maxRecDepth 100000 in decide

/-- Claim C2, amended: on a content-write/flush failure or a rename
failure during the publish step, `manager_write_resolv_conf` removes
*both* the managed target and the temporary file (best-effort `unlink` of
each) and returns the error: no temporary file remains and no partially
written file is ever visible, but the previously published file is
deleted rather than preserved. -/
theorem C2_amended_failure_cleanup (env : WriteEnv) (m : Manager)
    (fs : FS) (e : Nat)
    (hc1 : env.compileDnsError = none)
    (hc2 : env.compileDomainsError = none)
    (ho : env.openTempError = none)
    (hfail : env.flushError = some e ∨
      (env.flushError = none ∧ env.renameError = some e)) :
    (manager_write_resolv_conf env m fs).2.1 =
        { target := none, temp := none } ∧
    (manager_write_resolv_conf env m fs).2.2 = -(e : Int) := by
  unfold manager_write_resolv_conf
  rcases hfail with hf | ⟨hf, hr⟩
  · simp [hc1, hc2, ho, hf]
  · simp [hc1, hc2, ho, hf, hr]

/-- Witness for the amended C2 at the concrete flush-failure input. -/
theorem C2_amended_failure_cleanup_witness :
    (manager_write_resolv_conf c2Env c2Manager c2FS).2.1 =
        { target := none, temp := none } ∧
    (manager_write_resolv_conf c2Env c2Manager c2FS).2.2 = -(5 : Int) :=
  C2_amended_failure_cleanup c2Env c2Manager c2FS 5 rfl rfl rfl
    (Or.inl rfl)

/-- A write environment whose embedded read fails softly (`stat` of
`/etc/resolv.conf` fails with `EACCES`) while every step of the write
path succeeds. -/
def c10Env : WriteEnv :=
  { readEnv :=
      { pathStat := .error 13, ownStat := .error ENOENT,
        openResult := none, fstatResult := .error 13, lines := [],
        readError := none, parseServerOk := fun _ => true,
        parseDomainOk := fun _ => true },
    compileDnsError := none, compileDomainsError := none,
    openTempError := none, flushError := none, renameError := none }

/-- A manager with reading enabled and one server of each provenance. -/
def c10Manager : Manager :=
  { read_resolv_conf := true, resolv_conf_mtime := 0,
    dns_servers := [⟨"10.0.0.1", .system, false, some "10.0.0.1"⟩,
                    ⟨"192.168.1.1", .other, false, some "192.168.1.1"⟩],
    search_domains := [], current_dns_server := none,
    unicast_scope := false, cache_flushes := 0 }

/-- Claim C10: `manager_write_resolv_conf` ignores the result of the
embedded `manager_read_resolv_conf` call.  Even when that read fails (a
soft failure returning a negative code and clearing the system-config
records), the write path still compiles the deduplicated collections and
publishes the output file atomically, returning success. -/
theorem C10_write_ignores_read_failure (env : WriteEnv) (m : Manager)
    (fs : FS) (e : Nat)
    (hm : m.read_resolv_conf = true)
    (hps : env.readEnv.pathStat = .error e)
    (he : e ≠ ENOENT) (hpos : 0 < e)
    (hc1 : env.compileDnsError = none)
    (hc2 : env.compileDomainsError = none)
    (ho : env.openTempError = none) (hfl : env.flushError = none)
    (hr : env.renameError = none) :
    (manager_read_resolv_conf env.readEnv m).2 < 0 ∧
    (manager_write_resolv_conf env m fs).2.2 = 0 ∧
    (manager_write_resolv_conf env m fs).2.1.target =
      some (String.join (write_resolv_conf_contents
        (manager_compile_dns_servers
          (manager_read_resolv_conf env.readEnv m).1)
        (manager_compile_search_domains
          (manager_read_resolv_conf env.readEnv m).1))) := by
  have hread := read_stat_failure env.readEnv m e hm hps he
  refine ⟨?_, ?_, ?_⟩
  · rw [hread]
    simp [read_resolv_conf_clear]
    omega
  · unfold manager_write_resolv_conf
    simp [hc1, hc2, ho, hfl, hr]
  · unfold manager_write_resolv_conf
    simp [hc1, hc2, ho, hfl, hr]

/-- Witness for C10 at the concrete soft-read-failure input. -/
theorem C10_write_ignores_read_failure_witness :
    (manager_read_resolv_conf c10Env.readEnv c10Manager).2 < 0 ∧
    (manager_write_resolv_conf c10Env c10Manager
        { target := none, temp := none }).2.2 = 0 ∧
    (manager_write_resolv_conf c10Env c10Manager
        { target := none, temp := none }).2.1.target =
      some (String.join (write_resolv_conf_contents
        (manager_compile_dns_servers
          (manager_read_resolv_conf c10Env.readEnv c10Manager).1)
        (manager_compile_search_domains
          (manager_read_resolv_conf c10Env.readEnv c10Manager).1))) :=
  C10_write_ignores_read_failure c10Env c10Manager
    { target := none, temp := none } 13 rfl rfl (by decide) (by decide)
    rfl rfl rfl rfl rfl

end ResolvConf
